import Mathlib

/-!
Verification of `Products/Relations/components/types.py`: the two constraint
components `PortalTypeConstraint` and `InterfaceConstraint`.

Shallow embedding notes.
* A catalog brain is modelled by the only field the module reads from it,
  `portal_type`.
* A reference exposes a source brain and a target brain, as in the source
  (`reference.getSourceBrain()`, `reference.getTargetBrain()`).
* The chain is an opaque context threaded through validation unchanged; we
  model it as a list of strings.
* External collaborators (the UID catalog query, `brain.makeBrainAggregate`,
  and `utils.getPortalTypesByInterfaces`) are bundled in an `Env` record of
  functions, quantified over in the theorems.
* Raising `exception.ValidationException(msg, reference, chain)` is modelled
  by returning `Except.error` carrying the same three components; a method
  that returns normally is `Except.ok`.
* Python truthiness on the configured lists (`if ast:`) is modelled by
  emptiness tests on Lean lists.
-/

namespace Relations

/-- A catalog brain: the lightweight summary of a content object.  The module
only ever reads its `portal_type`. -/
structure Brain where
  portal_type : String
  deriving DecidableEq, Repr

/-- A reference: a directed edge carrying a source-side and a target-side
brain, as read by `reference.getSourceBrain()` / `reference.getTargetBrain()`. -/
structure Reference where
  sourceBrain : Brain
  targetBrain : Brain
  deriving DecidableEq, Repr

def Reference.getSourceBrain (r : Reference) : Brain := r.sourceBrain

def Reference.getTargetBrain (r : Reference) : Brain := r.targetBrain

/-- The opaque chain context passed through validation calls unchanged. -/
abbrev Chain := List String

/-- `exception.ValidationException(message, reference, chain)`. -/
structure ValidationException where
  message : String
  reference : Reference
  chain : Chain
  deriving DecidableEq, Repr

/-- The search-term mapping handed to the UID catalog: the module puts at most
one key, `portal_type`, into the dict, so we model the dict by that optional
entry. -/
structure SearchTerms where
  portal_type : Option (List String)
  deriving DecidableEq, Repr

/-- External collaborators of the module, modelled as unconstrained functions:
the UID catalog query (`uc(**terms)`), the brain aggregation
(`brain.makeBrainAggregate`), and the interface registry
(`utils.getPortalTypesByInterfaces`). -/
structure Env where
  uc : SearchTerms → List Brain
  makeBrainAggregate : Brain → Brain
  getPortalTypesByInterfaces : List String → List String

/-- Message of the source-side validation failure: the format string
`Source type %s not allowed for %s.` filled with the kind and the
single-quoted ruleset title. -/
def sourceTypeMessage (st title : String) : String :=
  "Source type " ++ st ++ " not allowed for \x27" ++ title ++ "\x27."

/-- Message of the target-side validation failure: the format string
`Target type %s not allowed for %s.` filled with the kind and the
single-quoted ruleset title. -/
def targetTypeMessage (tt title : String) : String :=
  "Target type " ++ tt ++ " not allowed for \x27" ++ title ++ "\x27."

/-- Body of `PortalTypeConstraint.getSearchTerms`, parameterized over the
resolved allowed-target list (`self.getAllowedTargetTypes()`), which is the
only method the subclass overrides. -/
def getSearchTermsCore (att : List String) : SearchTerms :=
  if att ≠ [] then ⟨some att⟩ else ⟨none⟩

/-- Body of `PortalTypeConstraint.makeVocabulary`, parameterized over the
resolved allowed lists. `targets = none` models the `targets=None` default. -/
def makeVocabularyCore (ast att : List String) (env : Env)
    (source : Brain) (targets : Option (List Brain)) : List Brain :=
  if ast ≠ [] ∧ source.portal_type ∉ ast then
    []
  else
    match targets with
    | some ts => ts.filter (fun t => decide (att = [] ∨ t.portal_type ∈ att))
    | none => (env.uc (getSearchTermsCore att)).map env.makeBrainAggregate

/-- Body of `PortalTypeConstraint.validateConnected`, parameterized over the
resolved allowed lists and the ruleset title (`self.getRuleset().Title()`). -/
def validateConnectedCore (ast att : List String) (title : String)
    (reference : Reference) (chain : Chain) : Except ValidationException Unit :=
  let st := reference.getSourceBrain.portal_type
  let tt := reference.getTargetBrain.portal_type
  if ast ≠ [] ∧ st ∉ ast then
    .error ⟨sourceTypeMessage st title, reference, chain⟩
  else if att ≠ [] ∧ tt ∉ att then
    .error ⟨targetTypeMessage tt title, reference, chain⟩
  else
    .ok ()

/-- `PortalTypeConstraint`: configuration read at evaluation time — the two
`LinesField`s, plus the title of the owning ruleset. -/
structure PortalTypeConstraint where
  allowedSourceTypes : List String
  allowedTargetTypes : List String
  rulesetTitle : String
  deriving DecidableEq, Repr

/-- Accessor generated for the `allowedSourceTypes` field. -/
def PortalTypeConstraint.getAllowedSourceTypes (c : PortalTypeConstraint) :
    List String :=
  c.allowedSourceTypes

/-- Accessor generated for the `allowedTargetTypes` field. -/
def PortalTypeConstraint.getAllowedTargetTypes (c : PortalTypeConstraint) :
    List String :=
  c.allowedTargetTypes

/-- `PortalTypeConstraint.makeVocabulary`. -/
def PortalTypeConstraint.makeVocabulary (c : PortalTypeConstraint) (env : Env)
    (source : Brain) (targets : Option (List Brain)) : List Brain :=
  makeVocabularyCore c.getAllowedSourceTypes c.getAllowedTargetTypes env
    source targets

/-- `PortalTypeConstraint.getSearchTerms`. -/
def PortalTypeConstraint.getSearchTerms (c : PortalTypeConstraint) :
    SearchTerms :=
  getSearchTermsCore c.getAllowedTargetTypes

/-- `PortalTypeConstraint.validateConnected`. -/
def PortalTypeConstraint.validateConnected (c : PortalTypeConstraint)
    (reference : Reference) (chain : Chain) : Except ValidationException Unit :=
  validateConnectedCore c.getAllowedSourceTypes c.getAllowedTargetTypes
    c.rulesetTitle reference chain

/-- `PortalTypeConstraint.validateDisconnected`: a no-op whose Python body is
just a docstring. -/
def PortalTypeConstraint.validateDisconnected (_c : PortalTypeConstraint)
    (_reference : Reference) (_chain : Chain) : Except ValidationException Unit :=
  .ok ()

/-- `InterfaceConstraint`: configuration — the two interface `LinesField`s,
plus the title of the owning ruleset. -/
structure InterfaceConstraint where
  allowedSourceInterfaces : List String
  allowedTargetInterfaces : List String
  rulesetTitle : String
  deriving DecidableEq, Repr

/-- `InterfaceConstraint._getPortalTypesByInterfaces`: resolve the interface
list through the registry and append the `"spam"` sentinel so the base class
does not read an empty resolution as "all allowed". -/
def InterfaceConstraint.resolvePortalTypesByInterfaces (env : Env)
    (allowed : List String) : List String :=
  let portal_types := env.getPortalTypesByInterfaces allowed
  portal_types ++ ["spam"]

/-- `InterfaceConstraint.getAllowedSourceTypes` (override). -/
def InterfaceConstraint.getAllowedSourceTypes (env : Env)
    (c : InterfaceConstraint) : List String :=
  let asi := c.allowedSourceInterfaces
  if asi ≠ [] then
    InterfaceConstraint.resolvePortalTypesByInterfaces env asi
  else
    []

/-- `InterfaceConstraint.getAllowedTargetTypes` (override). -/
def InterfaceConstraint.getAllowedTargetTypes (env : Env)
    (c : InterfaceConstraint) : List String :=
  let ati := c.allowedTargetInterfaces
  if ati ≠ [] then
    InterfaceConstraint.resolvePortalTypesByInterfaces env ati
  else
    []

/-- `makeVocabulary` as inherited by `InterfaceConstraint`: the base body run
on the overridden allowed lists. -/
def InterfaceConstraint.makeVocabulary (env : Env) (c : InterfaceConstraint)
    (source : Brain) (targets : Option (List Brain)) : List Brain :=
  makeVocabularyCore (InterfaceConstraint.getAllowedSourceTypes env c)
    (InterfaceConstraint.getAllowedTargetTypes env c) env source targets

/-- `getSearchTerms` as inherited by `InterfaceConstraint`. -/
def InterfaceConstraint.getSearchTerms (env : Env) (c : InterfaceConstraint) :
    SearchTerms :=
  getSearchTermsCore (InterfaceConstraint.getAllowedTargetTypes env c)

/-- `validateConnected` as inherited by `InterfaceConstraint`. -/
def InterfaceConstraint.validateConnected (env : Env) (c : InterfaceConstraint)
    (reference : Reference) (chain : Chain) : Except ValidationException Unit :=
  validateConnectedCore (InterfaceConstraint.getAllowedSourceTypes env c)
    (InterfaceConstraint.getAllowedTargetTypes env c) c.rulesetTitle
    reference chain

/-- `validateDisconnected` as inherited by `InterfaceConstraint`. -/
def InterfaceConstraint.validateDisconnected (_env : Env)
    (_c : InterfaceConstraint) (_reference : Reference) (_chain : Chain) :
    Except ValidationException Unit :=
  .ok ()

/-! Concrete fixtures used to exercise the theorems on closed inputs. -/

/-- Fixture: a brain of kind `Document`. -/
def documentBrain : Brain := ⟨"Document"⟩

/-- Fixture: a brain of kind `Image`. -/
def imageBrain : Brain := ⟨"Image"⟩

/-- Fixture: a reference whose source is an `Image` and whose target is a
`Document`. -/
def imageToDocumentRef : Reference := ⟨imageBrain, documentBrain⟩

/-- Fixture: a one-element chain context. -/
def someChain : Chain := ["ctx"]

/-- Fixture environment: the catalog returns one `Document` hit, aggregation
is the identity, and the interface registry resolves every interface list to
`["Document"]`. -/
def docEnv : Env := ⟨fun _ => [documentBrain], fun b => b, fun _ => ["Document"]⟩

/-- Fixture environment whose interface registry resolves every interface
list to no portal types at all. -/
def emptyRegistryEnv : Env := ⟨fun _ => [documentBrain], fun b => b, fun _ => []⟩

/-- Fixture constraint: no source restriction, targets restricted to
`Document`. -/
def documentTargetConstraint : PortalTypeConstraint :=
  ⟨[], ["Document"], "Rel Rule"⟩

/-- Fixture constraint: sources restricted to `News`, targets restricted to
`Document`. -/
def newsSourceConstraint : PortalTypeConstraint :=
  ⟨["News"], ["Document"], "Rel Rule"⟩

/-- Fixture constraint: both allow-lists empty. -/
def unrestrictedConstraint : PortalTypeConstraint := ⟨[], [], "Rel Rule"⟩

/-- Fixture constraint: sources restricted to `Image`, targets restricted to
`Document`. -/
def imageToDocConstraint : PortalTypeConstraint :=
  ⟨["Image"], ["Document"], "Rel Rule"⟩

/-- Fixture interface constraint: sources restricted to interface `IFoo`,
targets unrestricted. -/
def fooSourceIfaceConstraint : InterfaceConstraint := ⟨["IFoo"], [], "Rel Rule"⟩

/-- Fixture interface constraint: targets restricted to interface `IFoo`,
sources unrestricted. -/
def fooTargetIfaceConstraint : InterfaceConstraint := ⟨[], ["IFoo"], "Rel Rule"⟩

/-- Fixture candidate list: `Document`, `Image`, `Document`. -/
def docImgDocTargets : List Brain := [documentBrain, imageBrain, documentBrain]

/-- Fixture validation failure produced by `newsSourceConstraint` on
`imageToDocumentRef`. -/
def imageSourceError : ValidationException :=
  ⟨sourceTypeMessage "Image" "Rel Rule", imageToDocumentRef, someChain⟩

/-! Helper lemmas about the shared method bodies. -/

/-- Helper: any error produced by the `validateConnected` body is one of the
two message shapes, with the reference and chain passed through unchanged. -/
theorem validateConnectedCore_error_shape (ast att : List String)
    (title : String) (reference : Reference) (chain : Chain)
    (e : ValidationException)
    (h : validateConnectedCore ast att title reference chain = .error e) :
    e = ⟨sourceTypeMessage reference.getSourceBrain.portal_type title,
         reference, chain⟩ ∨
    e = ⟨targetTypeMessage reference.getTargetBrain.portal_type title,
         reference, chain⟩ := by
  unfold validateConnectedCore at h
  dsimp only at h
  split_ifs at h <;> simp_all

/-- Helper: a restricted, non-member source kind makes the `validateConnected`
body fail with the source-side error. -/
theorem validateConnectedCore_src_err (ast att : List String) (title : String)
    (reference : Reference) (chain : Chain)
    (hne : ast ≠ []) (hst : reference.getSourceBrain.portal_type ∉ ast) :
    validateConnectedCore ast att title reference chain =
      .error ⟨sourceTypeMessage reference.getSourceBrain.portal_type title,
              reference, chain⟩ := by
  unfold validateConnectedCore
  simp [hne, hst]

/-- Helper: with the source side passing, a restricted, non-member target kind
makes the `validateConnected` body fail with the target-side error. -/
theorem validateConnectedCore_tgt_err (ast att : List String) (title : String)
    (reference : Reference) (chain : Chain)
    (hs : ast = [] ∨ reference.getSourceBrain.portal_type ∈ ast)
    (hne : att ≠ []) (htt : reference.getTargetBrain.portal_type ∉ att) :
    validateConnectedCore ast att title reference chain =
      .error ⟨targetTypeMessage reference.getTargetBrain.portal_type title,
              reference, chain⟩ := by
  unfold validateConnectedCore
  rcases hs with hs | hs <;> simp [hs, hne, htt]

/-- Helper: when both sides pass, the `validateConnected` body succeeds. -/
theorem validateConnectedCore_ok (ast att : List String) (title : String)
    (reference : Reference) (chain : Chain)
    (hs : ast = [] ∨ reference.getSourceBrain.portal_type ∈ ast)
    (ht : att = [] ∨ reference.getTargetBrain.portal_type ∈ att) :
    validateConnectedCore ast att title reference chain = .ok () := by
  unfold validateConnectedCore
  rcases hs with hs | hs <;> rcases ht with ht | ht <;> simp [hs, ht]

/-- Helper: a restricted, non-member source kind makes the `makeVocabulary`
body return the empty list on every path. -/
theorem makeVocabularyCore_src_rejected (ast att : List String) (env : Env)
    (source : Brain) (targets : Option (List Brain))
    (hne : ast ≠ []) (hs : source.portal_type ∉ ast) :
    makeVocabularyCore ast att env source targets = [] := by
  unfold makeVocabularyCore
  simp [hne, hs]

/-- Helper: with the source admitted, the `makeVocabulary` body on supplied
targets is the pure filter. -/
theorem makeVocabularyCore_filter (ast att : List String) (env : Env)
    (source : Brain) (ts : List Brain)
    (hs : ast = [] ∨ source.portal_type ∈ ast) :
    makeVocabularyCore ast att env source (some ts) =
      ts.filter (fun t => decide (att = [] ∨ t.portal_type ∈ att)) := by
  unfold makeVocabularyCore
  rcases hs with hs | hs <;> simp [hs]

/-- Helper: with the source admitted and no targets supplied, the
`makeVocabulary` body queries the catalog with the search terms and wraps
every hit. -/
theorem makeVocabularyCore_search (ast att : List String) (env : Env)
    (source : Brain)
    (hs : ast = [] ∨ source.portal_type ∈ ast) :
    makeVocabularyCore ast att env source none =
      (env.uc (getSearchTermsCore att)).map env.makeBrainAggregate := by
  unfold makeVocabularyCore
  rcases hs with hs | hs <;> simp [hs]

/-- Helper: the source-side message and the target-side message are never the
same string, whatever kinds and titles they embed. -/
theorem sourceTypeMessage_ne_targetTypeMessage (st tt t1 t2 : String) :
    sourceTypeMessage st t1 ≠ targetTypeMessage tt t2 := by
  intro h
  have h2 := congrArg String.data h
  simp [sourceTypeMessage, targetTypeMessage, String.data_append] at h2

/-! Claim theorems. -/

/-- C2: whenever the source kind of a reference is absent from a non-empty
allowed-source list, `validateConnected` fails with the source-disallowed
error — regardless of the target side — and the failure carries the message
naming the offending kind and the ruleset title, plus the reference and the
chain unchanged. -/
theorem validateConnected_source_disallowed (c : PortalTypeConstraint)
    (reference : Reference) (chain : Chain)
    (hne : c.allowedSourceTypes ≠ [])
    (hst : reference.getSourceBrain.portal_type ∉ c.allowedSourceTypes) :
    c.validateConnected reference chain =
      .error ⟨sourceTypeMessage reference.getSourceBrain.portal_type
                c.rulesetTitle, reference, chain⟩ :=
  validateConnectedCore_src_err _ _ _ _ _ hne hst

/-- Witness for C2: the `News`-source rule rejects a reference whose source
is an `Image`, even though its `Document` target would pass. -/
theorem validateConnected_source_disallowed_witness :
    newsSourceConstraint.validateConnected imageToDocumentRef someChain =
      .error ⟨sourceTypeMessage imageToDocumentRef.getSourceBrain.portal_type
                newsSourceConstraint.rulesetTitle, imageToDocumentRef,
              someChain⟩ :=
  validateConnected_source_disallowed newsSourceConstraint imageToDocumentRef
    someChain (by decide) (by decide)

/-- C4: when both allow-lists are empty, `validateConnected` raises no error
for any reference and any chain. -/
theorem validateConnected_unrestricted_ok (c : PortalTypeConstraint)
    (reference : Reference) (chain : Chain)
    (hs : c.allowedSourceTypes = []) (ht : c.allowedTargetTypes = []) :
    c.validateConnected reference chain = .ok () :=
  validateConnectedCore_ok _ _ _ _ _ (Or.inl hs) (Or.inl ht)

/-- Witness for C4: the fully unrestricted rule accepts the fixture
reference. -/
theorem validateConnected_unrestricted_ok_witness :
    unrestrictedConstraint.allowedSourceTypes = [] ∧
    unrestrictedConstraint.validateConnected imageToDocumentRef someChain =
      .ok () :=
  ⟨rfl, validateConnected_unrestricted_ok unrestrictedConstraint
    imageToDocumentRef someChain rfl rfl⟩

/-- C5: when the source kind is a member of the (hence non-empty)
allowed-source list and the target kind a member of the allowed-target list,
`validateConnected` succeeds. -/
theorem validateConnected_both_allowed_ok (c : PortalTypeConstraint)
    (reference : Reference) (chain : Chain)
    (hs : reference.getSourceBrain.portal_type ∈ c.allowedSourceTypes)
    (ht : reference.getTargetBrain.portal_type ∈ c.allowedTargetTypes) :
    c.validateConnected reference chain = .ok () :=
  validateConnectedCore_ok _ _ _ _ _ (Or.inr hs) (Or.inr ht)

/-- Witness for C5: the `Image`-to-`Document` rule accepts the fixture
reference. -/
theorem validateConnected_both_allowed_ok_witness :
    imageToDocConstraint.validateConnected imageToDocumentRef someChain =
      .ok () :=
  validateConnected_both_allowed_ok imageToDocConstraint imageToDocumentRef
    someChain (by decide) (by decide)

/-- C8: `validateDisconnected` raises no error for any configuration, any
reference and any chain, on either rule class. -/
theorem validateDisconnected_never_fails :
    (∀ (c : PortalTypeConstraint) (reference : Reference) (chain : Chain),
      c.validateDisconnected reference chain = .ok ()) ∧
    (∀ (env : Env) (c : InterfaceConstraint) (reference : Reference)
        (chain : Chain),
      InterfaceConstraint.validateDisconnected env c reference chain =
        .ok ()) :=
  ⟨fun _ _ _ => rfl, fun _ _ _ _ => rfl⟩

/-- C6: for a source admitted by the source-side check, `makeVocabulary` on a
supplied candidate list is exactly the order-preserving filter keeping the
elements whose kind is in the allowed-target list (all of them when that list
is empty): it equals `List.filter`, it is a sublist of the input, and
membership is characterized by the target-side test. -/
theorem makeVocabulary_filter_spec (c : PortalTypeConstraint) (env : Env)
    (source : Brain) (targets : List Brain)
    (hs : c.allowedSourceTypes = [] ∨
      source.portal_type ∈ c.allowedSourceTypes) :
    c.makeVocabulary env source (some targets) =
      targets.filter (fun t =>
        decide (c.allowedTargetTypes = [] ∨
          t.portal_type ∈ c.allowedTargetTypes)) ∧
    List.Sublist (c.makeVocabulary env source (some targets)) targets ∧
    ∀ t, t ∈ c.makeVocabulary env source (some targets) ↔
      t ∈ targets ∧ (c.allowedTargetTypes = [] ∨
        t.portal_type ∈ c.allowedTargetTypes) := by
  have h := makeVocabularyCore_filter c.getAllowedSourceTypes
    c.getAllowedTargetTypes env source targets hs
  refine ⟨h, ?_, ?_⟩
  · unfold PortalTypeConstraint.makeVocabulary
    rw [h]
    exact List.filter_sublist targets
  · intro t
    unfold PortalTypeConstraint.makeVocabulary
    rw [h]
    simp [List.mem_filter, PortalTypeConstraint.getAllowedTargetTypes]

/-- Witness for C6: with no source restriction and targets restricted to
`Document`, the candidates `[Document, Image, Document]` filter to the first
and third element, in order. -/
theorem makeVocabulary_filter_spec_witness :
    (documentTargetConstraint.allowedSourceTypes = [] ∨
      documentBrain.portal_type ∈ documentTargetConstraint.allowedSourceTypes) ∧
    documentTargetConstraint.makeVocabulary docEnv documentBrain
      (some docImgDocTargets) = [documentBrain, documentBrain] := by
  refine ⟨Or.inl rfl, ?_⟩
  have h := (makeVocabulary_filter_spec documentTargetConstraint docEnv
    documentBrain docImgDocTargets (Or.inl rfl)).1
  rw [h]
  rfl

/-- C7: when the source kind is absent from a non-empty allowed-source list,
`makeVocabulary` returns the empty list whatever the targets argument is —
a supplied candidate list or none at all. -/
theorem makeVocabulary_source_disallowed_empty (c : PortalTypeConstraint)
    (env : Env) (source : Brain)
    (hne : c.allowedSourceTypes ≠ [])
    (hs : source.portal_type ∉ c.allowedSourceTypes) :
    ∀ targets : Option (List Brain),
      c.makeVocabulary env source targets = [] :=
  fun targets => makeVocabularyCore_src_rejected _ _ _ _ targets hne hs

/-- Witness for C7: the `News`-source rule gives an `Image` source an empty
vocabulary, both on the filter path and on the catalog path. -/
theorem makeVocabulary_source_disallowed_empty_witness :
    newsSourceConstraint.makeVocabulary docEnv imageBrain
      (some docImgDocTargets) = [] ∧
    newsSourceConstraint.makeVocabulary docEnv imageBrain none = [] := by
  have h := makeVocabulary_source_disallowed_empty newsSourceConstraint docEnv
    imageBrain (by decide) (by decide)
  exact ⟨h (some docImgDocTargets), h none⟩

/-- C10: the filter path of `makeVocabulary` is idempotent — feeding its
output back in as the candidate list returns it unchanged, for any source
admitted by the source-side check. -/
theorem makeVocabulary_filter_idempotent (c : PortalTypeConstraint)
    (env : Env) (source : Brain) (targets : List Brain)
    (hs : c.allowedSourceTypes = [] ∨
      source.portal_type ∈ c.allowedSourceTypes) :
    c.makeVocabulary env source
        (some (c.makeVocabulary env source (some targets))) =
      c.makeVocabulary env source (some targets) := by
  have h := makeVocabularyCore_filter c.getAllowedSourceTypes
    c.getAllowedTargetTypes env source targets hs
  have h2 := makeVocabularyCore_filter c.getAllowedSourceTypes
    c.getAllowedTargetTypes env source
    (c.makeVocabulary env source (some targets)) hs
  unfold PortalTypeConstraint.makeVocabulary at h2 ⊢
  rw [h2, h, List.filter_filter]
  simp

/-- Witness for C10: idempotence on the fixture candidates under the
`Document`-target rule. -/
theorem makeVocabulary_filter_idempotent_witness :
    documentTargetConstraint.makeVocabulary docEnv documentBrain
        (some (documentTargetConstraint.makeVocabulary docEnv documentBrain
          (some docImgDocTargets))) =
      documentTargetConstraint.makeVocabulary docEnv documentBrain
        (some docImgDocTargets) :=
  makeVocabulary_filter_idempotent documentTargetConstraint docEnv
    documentBrain docImgDocTargets (Or.inl rfl)

/-- C1: the `InterfaceConstraint` overrides return `[]` for an empty
configured interface list (unrestricted) and, for a non-empty one, the
registry resolution with the `"spam"` sentinel appended; hence a non-empty
interface list resolving to no portal types yields exactly `["spam"]`, which
empties the vocabulary for any real-kind source and makes `validateConnected`
fail on that side for any real kind — unlike an empty interface list. -/
theorem interface_allowed_types_sentinel (env : Env) (c : InterfaceConstraint) :
    (c.allowedSourceInterfaces = [] →
      InterfaceConstraint.getAllowedSourceTypes env c = []) ∧
    (c.allowedTargetInterfaces = [] →
      InterfaceConstraint.getAllowedTargetTypes env c = []) ∧
    (c.allowedSourceInterfaces ≠ [] →
      InterfaceConstraint.getAllowedSourceTypes env c =
        env.getPortalTypesByInterfaces c.allowedSourceInterfaces ++
          ["spam"]) ∧
    (c.allowedTargetInterfaces ≠ [] →
      InterfaceConstraint.getAllowedTargetTypes env c =
        env.getPortalTypesByInterfaces c.allowedTargetInterfaces ++
          ["spam"]) ∧
    (c.allowedSourceInterfaces ≠ [] →
      env.getPortalTypesByInterfaces c.allowedSourceInterfaces = [] →
      InterfaceConstraint.getAllowedSourceTypes env c = ["spam"] ∧
      (∀ (source : Brain) (targets : Option (List Brain)),
        source.portal_type ≠ "spam" →
        InterfaceConstraint.makeVocabulary env c source targets = []) ∧
      (∀ (reference : Reference) (chain : Chain),
        reference.getSourceBrain.portal_type ≠ "spam" →
        InterfaceConstraint.validateConnected env c reference chain =
          .error ⟨sourceTypeMessage reference.getSourceBrain.portal_type
                    c.rulesetTitle, reference, chain⟩)) ∧
    (c.allowedTargetInterfaces ≠ [] →
      env.getPortalTypesByInterfaces c.allowedTargetInterfaces = [] →
      c.allowedSourceInterfaces = [] →
      InterfaceConstraint.getAllowedTargetTypes env c = ["spam"] ∧
      (∀ (source : Brain) (ts : List Brain),
        (∀ t ∈ ts, t.portal_type ≠ "spam") →
        InterfaceConstraint.makeVocabulary env c source (some ts) = []) ∧
      (∀ (reference : Reference) (chain : Chain),
        reference.getTargetBrain.portal_type ≠ "spam" →
        InterfaceConstraint.validateConnected env c reference chain =
          .error ⟨targetTypeMessage reference.getTargetBrain.portal_type
                    c.rulesetTitle, reference, chain⟩)) := by
  refine ⟨?_, ?_, ?_, ?_, ?_, ?_⟩
  · intro h
    simp [InterfaceConstraint.getAllowedSourceTypes, h]
  · intro h
    simp [InterfaceConstraint.getAllowedTargetTypes, h]
  · intro h
    simp [InterfaceConstraint.getAllowedSourceTypes,
      InterfaceConstraint.resolvePortalTypesByInterfaces, h]
  · intro h
    simp [InterfaceConstraint.getAllowedTargetTypes,
      InterfaceConstraint.resolvePortalTypesByInterfaces, h]
  · intro h hres
    have hast : InterfaceConstraint.getAllowedSourceTypes env c = ["spam"] := by
      simp [InterfaceConstraint.getAllowedSourceTypes,
        InterfaceConstraint.resolvePortalTypesByInterfaces, h, hres]
    refine ⟨hast, ?_, ?_⟩
    · intro source targets hsrc
      unfold InterfaceConstraint.makeVocabulary
      rw [hast]
      exact makeVocabularyCore_src_rejected _ _ _ _ _ (by simp)
        (by simp [hsrc])
    · intro reference chain hsrc
      unfold InterfaceConstraint.validateConnected
      rw [hast]
      exact validateConnectedCore_src_err _ _ _ _ _ (by simp) (by simp [hsrc])
  · intro h hres hsrcEmpty
    have hatt : InterfaceConstraint.getAllowedTargetTypes env c = ["spam"] := by
      simp [InterfaceConstraint.getAllowedTargetTypes,
        InterfaceConstraint.resolvePortalTypesByInterfaces, h, hres]
    have hast : InterfaceConstraint.getAllowedSourceTypes env c = [] := by
      simp [InterfaceConstraint.getAllowedSourceTypes, hsrcEmpty]
    refine ⟨hatt, ?_, ?_⟩
    · intro source ts hts
      unfold InterfaceConstraint.makeVocabulary
      rw [hast, hatt, makeVocabularyCore_filter _ _ _ _ _ (Or.inl rfl)]
      refine List.filter_eq_nil_iff.mpr ?_
      intro t ht
      simp [hts t ht]
    · intro reference chain htt
      unfold InterfaceConstraint.validateConnected
      rw [hast, hatt]
      exact validateConnectedCore_tgt_err _ _ _ _ _ (Or.inl rfl) (by simp)
        (by simp [htt])

/-- Witness for C1: with a registry resolving nothing, a source interface
list `["IFoo"]` resolves to exactly `["spam"]` and the `Image`-source fixture
reference is rejected with the source-side error. -/
theorem interface_allowed_types_sentinel_witness :
    InterfaceConstraint.getAllowedSourceTypes emptyRegistryEnv
      fooSourceIfaceConstraint = ["spam"] ∧
    InterfaceConstraint.validateConnected emptyRegistryEnv
        fooSourceIfaceConstraint imageToDocumentRef someChain =
      .error ⟨sourceTypeMessage imageToDocumentRef.getSourceBrain.portal_type
                fooSourceIfaceConstraint.rulesetTitle, imageToDocumentRef,
              someChain⟩ := by
  have h := (interface_allowed_types_sentinel emptyRegistryEnv
    fooSourceIfaceConstraint).2.2.2.2.1 (by decide) rfl
  exact ⟨h.1, h.2.2 imageToDocumentRef someChain (by decide)⟩

/-- C3: every failure this module raises comes from `validateConnected` and
is one of the per-side shapes — the source-disallowed message or the
target-disallowed message, for either rule class, with reference and chain
attached — the messages of the two sides are always distinct, and
`validateDisconnected` raises nothing. -/
theorem validation_failure_kinds :
    (∀ (c : PortalTypeConstraint) (reference : Reference) (chain : Chain)
        (e : ValidationException),
      c.validateConnected reference chain = .error e →
      e = ⟨sourceTypeMessage reference.getSourceBrain.portal_type
             c.rulesetTitle, reference, chain⟩ ∨
      e = ⟨targetTypeMessage reference.getTargetBrain.portal_type
             c.rulesetTitle, reference, chain⟩) ∧
    (∀ (env : Env) (c : InterfaceConstraint) (reference : Reference)
        (chain : Chain) (e : ValidationException),
      InterfaceConstraint.validateConnected env c reference chain =
        .error e →
      e = ⟨sourceTypeMessage reference.getSourceBrain.portal_type
             c.rulesetTitle, reference, chain⟩ ∨
      e = ⟨targetTypeMessage reference.getTargetBrain.portal_type
             c.rulesetTitle, reference, chain⟩) ∧
    (∀ (c : PortalTypeConstraint) (reference : Reference) (chain : Chain),
      c.validateDisconnected reference chain = .ok ()) ∧
    (∀ (env : Env) (c : InterfaceConstraint) (reference : Reference)
        (chain : Chain),
      InterfaceConstraint.validateDisconnected env c reference chain =
        .ok ()) ∧
    (∀ st tt t1 t2 : String,
      sourceTypeMessage st t1 ≠ targetTypeMessage tt t2) := by
  refine ⟨?_, ?_, fun _ _ _ => rfl, fun _ _ _ _ => rfl,
    sourceTypeMessage_ne_targetTypeMessage⟩
  · intro c reference chain e hE
    exact validateConnectedCore_error_shape _ _ _ _ _ _ hE
  · intro env c reference chain e hE
    exact validateConnectedCore_error_shape _ _ _ _ _ _ hE

/-- Witness for C3: the error produced by the `News`-source rule on the
fixture reference has one of the two admissible shapes. -/
theorem validation_failure_kinds_witness :
    imageSourceError =
      ⟨sourceTypeMessage imageToDocumentRef.getSourceBrain.portal_type
         newsSourceConstraint.rulesetTitle, imageToDocumentRef, someChain⟩ ∨
    imageSourceError =
      ⟨targetTypeMessage imageToDocumentRef.getTargetBrain.portal_type
         newsSourceConstraint.rulesetTitle, imageToDocumentRef, someChain⟩ :=
  validation_failure_kinds.1 newsSourceConstraint imageToDocumentRef someChain
    imageSourceError rfl

/-- C9: with a non-empty allowed-target interface list, the inherited
`getSearchTerms` maps the `portal_type` key to the resolved kinds with the
`"spam"` sentinel included, and the no-targets vocabulary path issues the
catalog query with exactly those terms. -/
theorem interface_getSearchTerms_sentinel (env : Env)
    (c : InterfaceConstraint) (h : c.allowedTargetInterfaces ≠ []) :
    InterfaceConstraint.getSearchTerms env c =
      ⟨some (env.getPortalTypesByInterfaces c.allowedTargetInterfaces ++
        ["spam"])⟩ ∧
    "spam" ∈ ((InterfaceConstraint.getSearchTerms env c).portal_type.getD
      []) ∧
    (∀ pt ∈ env.getPortalTypesByInterfaces c.allowedTargetInterfaces,
      pt ∈ ((InterfaceConstraint.getSearchTerms env c).portal_type.getD
        [])) ∧
    (∀ source : Brain,
      (InterfaceConstraint.getAllowedSourceTypes env c = [] ∨
        source.portal_type ∈
          InterfaceConstraint.getAllowedSourceTypes env c) →
      InterfaceConstraint.makeVocabulary env c source none =
        (env.uc (InterfaceConstraint.getSearchTerms env c)).map
          env.makeBrainAggregate) := by
  have hatt : InterfaceConstraint.getAllowedTargetTypes env c =
      env.getPortalTypesByInterfaces c.allowedTargetInterfaces ++ ["spam"] := by
    simp [InterfaceConstraint.getAllowedTargetTypes,
      InterfaceConstraint.resolvePortalTypesByInterfaces, h]
  have hterms : InterfaceConstraint.getSearchTerms env c =
      ⟨some (env.getPortalTypesByInterfaces c.allowedTargetInterfaces ++
        ["spam"])⟩ := by
    unfold InterfaceConstraint.getSearchTerms
    rw [hatt]
    simp [getSearchTermsCore]
  refine ⟨hterms, ?_, ?_, ?_⟩
  · rw [hterms]
    simp
  · intro pt hpt
    rw [hterms]
    simp [hpt]
  · intro source hadm
    unfold InterfaceConstraint.makeVocabulary
    rw [makeVocabularyCore_search _ _ _ _ hadm]
    rfl

/-- Witness for C9: the `IFoo`-target rule over the `Document`-resolving
registry searches with `portal_type = ["Document", "spam"]`. -/
theorem interface_getSearchTerms_sentinel_witness :
    InterfaceConstraint.getSearchTerms docEnv fooTargetIfaceConstraint =
      ⟨some (docEnv.getPortalTypesByInterfaces
        fooTargetIfaceConstraint.allowedTargetInterfaces ++ ["spam"])⟩ ∧
    "spam" ∈ ((InterfaceConstraint.getSearchTerms docEnv
      fooTargetIfaceConstraint).portal_type.getD []) := by
  have h := interface_getSearchTerms_sentinel docEnv fooTargetIfaceConstraint
    (by decide)
  exact ⟨h.1, h.2.1⟩

end Relations
